import Mathlib

/-!
Shallow embedding of the wake-on-demand server (src/main.go).

The registry state (`espMap`) is modelled as an association list from
device id to `ESP` record; Go map lookup/update become `lookup`/`updateEsp`.
Time values (`time.Now()`, `timeoutDuration`) are modelled as `Int`
(Go durations are signed).  Each HTTP handler becomes a pure function from
the request data (method, decoded body / query parameter, current time)
and the registry to the new registry, the HTTP status code, and the
relevant JSON response field.  JSON decoding outcomes are modelled as
`Option`: `none` stands for a body that failed to decode.
-/

namespace WakeOnDemand

/-- Go struct ESP (main.go lines 27-32).  `command` models the
`Command ESPCommand` field, where `type ESPCommand string`; the empty
string is the "no pending command" value used by the source. -/
structure ESP where
  id : String
  command : String
  lastSeen : Int
  online : Bool
deriving DecidableEq, Repr

/-- The `espMap` registry, modelled as an association list. -/
abbrev Registry := List (String × ESP)

/-- Go map lookup `espMap[id]`. -/
def lookup : Registry → String → Option ESP
  | [], _ => none
  | (k, e) :: rest, id => if k = id then some e else lookup rest id

/-- In-place mutation of the record stored under `id`
(Go mutates through the `*ESP` pointer). -/
def updateEsp : Registry → String → (ESP → ESP) → Registry
  | [], _, _ => []
  | (k, e) :: rest, id, f =>
      if k = id then (k, f e) :: rest else (k, e) :: updateEsp rest id f

/-- registerHandler (main.go lines 185-228).  `body = none` models a JSON
decode failure; `body = some id` a decoded `{"id": id}` (a missing field
decodes to the zero value `""`).  Returns the new registry and the HTTP
status code. -/
def registerHandler (method : String) (body : Option String) (now : Int)
    (m : Registry) : Registry × Nat :=
  if method ≠ "POST" then (m, 405)
  else
    match body with
    | none => (m, 400)
    | some id =>
      if id = "" then (m, 400)
      else
        match lookup m id with
        | none => ((id, ⟨id, "", now, true⟩) :: m, 200)
        | some _ =>
            (updateEsp m id (fun e => { e with lastSeen := now, online := true }), 200)

/-- commandHandler, the poll endpoint (main.go lines 230-263).  The source
never inspects `r.Method`, so `method` is received but unused.  `queryId`
is `r.URL.Query().Get("id")` (the empty string when absent).  Returns the
new registry, the status code, and `some cmd` for the 200 response's
`"command"` field (`none` on the error paths, which write no such field). -/
def commandHandler (method : String) (queryId : String) (now : Int)
    (m : Registry) : Registry × Nat × Option String :=
  if queryId = "" then (m, 400, none)
  else
    match lookup m queryId with
    | none => (m, 404, none)
    | some esp =>
        (updateEsp m queryId
          (fun e => { e with lastSeen := now, online := true, command := "" }),
         200, some esp.command)

/-- setCommandHandler (main.go lines 265-310).  `body = none` models a JSON
decode failure; `some (id, command)` a decoded body.  Returns the new
registry, the status code, and `some command` echoed back on success. -/
def setCommandHandler (method : String) (body : Option (String × String))
    (m : Registry) : Registry × Nat × Option String :=
  if method ≠ "POST" then (m, 405, none)
  else
    match body with
    | none => (m, 400, none)
    | some (id, command) =>
      match lookup m id with
      | none => (m, 404, none)
      | some esp =>
        if !esp.online then (m, 503, none)
        else (updateEsp m id (fun e => { e with command := command }), 200, some command)

/-- One pass of monitorESPs (main.go lines 167-181): for every device,
`online := (now - lastSeen) < timeoutDuration`. -/
def monitorPass (now timeout : Int) (m : Registry) : Registry :=
  m.map (fun p => (p.1, { p.2 with online := decide (now - p.2.lastSeen < timeout) }))

/-- listHandler (main.go lines 312-338): never inspects the method, never
mutates the registry; returns a snapshot of (id, online) per device (the
human-readable elapsed string is elided). -/
def listHandler (method : String) (m : Registry) :
    Registry × Nat × List (String × Bool) :=
  (m, 200, m.map (fun p => (p.1, p.2.online)))

/-- healthHandler (main.go lines 340-360): never inspects the method, never
mutates the registry; returns (total, online) counts. -/
def healthHandler (method : String) (m : Registry) : Registry × Nat × (Nat × Nat) :=
  (m, 200, (m.length, (m.filter (fun p => p.2.online)).length))

/-- The registry-touching operations of the server, for stating invariants
over arbitrary operation sequences. -/
inductive Op where
  | register (method : String) (body : Option String) (now : Int)
  | poll (method : String) (queryId : String) (now : Int)
  | setCmd (method : String) (body : Option (String × String))
  | list (method : String)
  | health (method : String)
  | monitor (now timeout : Int)
deriving DecidableEq, Repr

/-- The registry after executing one operation. -/
def applyOp : Op → Registry → Registry
  | .register me b now, m => (registerHandler me b now m).1
  | .poll me q now, m => (commandHandler me q now m).1
  | .setCmd me b, m => (setCommandHandler me b m).1
  | .list me, m => (listHandler me m).1
  | .health me, m => (healthHandler me m).1
  | .monitor now t, m => monitorPass now t m

/-- Whether an operation is a monitor pass. -/
def Op.isMonitor : Op → Bool
  | .monitor _ _ => true
  | _ => false

/-! Helper lemmas about the association-list registry. -/

theorem lookup_updateEsp_self (m : Registry) (id : String) (f : ESP → ESP)
    (e : ESP) (h : lookup m id = some e) :
    lookup (updateEsp m id f) id = some (f e) := by
  induction m with
  | nil => simp [lookup] at h
  | cons p rest ih =>
      obtain ⟨k, a⟩ := p
      by_cases hk : k = id
      · subst hk
        simp [lookup] at h
        simp [updateEsp, lookup, h]
      · simp [lookup, hk] at h
        simp [updateEsp, lookup, hk, ih h]

theorem lookup_updateEsp_ne (m : Registry) (id id' : String) (f : ESP → ESP)
    (h : id ≠ id') :
    lookup (updateEsp m id f) id' = lookup m id' := by
  induction m with
  | nil => simp [updateEsp]
  | cons p rest ih =>
      obtain ⟨k, a⟩ := p
      by_cases hk : k = id
      · subst hk
        simp [updateEsp, lookup, h]
      · simp [updateEsp, lookup, hk, ih]

theorem updateEsp_length (m : Registry) (id : String) (f : ESP → ESP) :
    (updateEsp m id f).length = m.length := by
  induction m with
  | nil => rfl
  | cons p rest ih =>
      obtain ⟨k, a⟩ := p
      by_cases hk : k = id <;> simp [updateEsp, hk, ih]

theorem lookup_monitorPass (now timeout : Int) (m : Registry) (id : String) :
    lookup (monitorPass now timeout m) id =
      (lookup m id).map
        (fun e => { e with online := decide (now - e.lastSeen < timeout) }) := by
  induction m with
  | nil => rfl
  | cons p rest ih =>
      obtain ⟨k, a⟩ := p
      by_cases hk : k = id
      · subst hk
        simp [monitorPass, lookup]
      · simp [monitorPass, lookup, hk] at ih ⊢
        exact ih

/-! Claim theorems. -/

/-- C2: for every non-empty id, Register(id) succeeds (status 200); if id is
absent it creates a record with pendingCommand none (`""`), lastSeenAt = now,
online = true; if id is present it updates lastSeenAt and online while keeping
the pending command (`{ e with lastSeen := now, online := true }` preserves
`e.command`), and the registry size is unchanged (no duplicate record). -/
theorem register_idempotent_spec (id : String) (now : Int) (m : Registry)
    (h : id ≠ "") :
    (registerHandler "POST" (some id) now m).2 = 200 ∧
    (lookup m id = none →
      (registerHandler "POST" (some id) now m).1 = (id, ⟨id, "", now, true⟩) :: m) ∧
    (∀ e, lookup m id = some e →
      lookup (registerHandler "POST" (some id) now m).1 id =
        some { e with lastSeen := now, online := true } ∧
      (registerHandler "POST" (some id) now m).1.length = m.length) := by
  refine ⟨?_, ?_, ?_⟩
  · unfold registerHandler
    cases hl : lookup m id <;> simp [h, hl]
  · intro hl
    unfold registerHandler
    simp [h, hl]
  · intro e hl
    unfold registerHandler
    simp [h, hl]
    exact ⟨lookup_updateEsp_self m id _ e hl, updateEsp_length m id _⟩

/-- Witness for C2 at id = "a", now = 0, empty registry. -/
theorem register_idempotent_spec_witness :
    (registerHandler "POST" (some "a") 0 []).2 = 200 :=
  (register_idempotent_spec "a" 0 [] (by decide)).1

/-- C3: SetCommand(id, c) fails with 404 (NotFound) when id is absent, with
503 (Unavailable) when the stored online flag is false, and otherwise succeeds
with 200, storing c verbatim (c is an arbitrary string, not restricted to the
pulse/force/status vocabulary) and echoing c back. -/
theorem setCommand_outcomes (id c : String) (m : Registry) :
    (lookup m id = none →
      setCommandHandler "POST" (some (id, c)) m = (m, 404, none)) ∧
    (∀ e, lookup m id = some e → e.online = false →
      setCommandHandler "POST" (some (id, c)) m = (m, 503, none)) ∧
    (∀ e, lookup m id = some e → e.online = true →
      (setCommandHandler "POST" (some (id, c)) m).2.1 = 200 ∧
      (setCommandHandler "POST" (some (id, c)) m).2.2 = some c ∧
      lookup (setCommandHandler "POST" (some (id, c)) m).1 id =
        some { e with command := c }) := by
  refine ⟨?_, ?_, ?_⟩
  · intro hl
    unfold setCommandHandler
    simp [hl]
  · intro e hl ho
    unfold setCommandHandler
    simp [hl, ho]
  · intro e hl ho
    unfold setCommandHandler
    simp [hl, ho]
    have h := lookup_updateEsp_self m id (fun a => { a with command := c }) e hl
    simp only [ho] at h
    exact h

/-- Witness for C3: device "a" online, arbitrary command string "zap" is
stored verbatim and echoed. -/
theorem setCommand_outcomes_witness :
    (setCommandHandler "POST" (some ("a", "zap"))
        [("a", ⟨"a", "", 0, true⟩)]).2.2 = some "zap" :=
  ((setCommand_outcomes "a" "zap" [("a", ⟨"a", "", 0, true⟩)]).2.2
    ⟨"a", "", 0, true⟩ (by decide) (by decide)).2.1

/-- C9: a successful SetCommand(id, c) changes only the pending command of
id's record: the result of looking up id is exactly `{ e with command := c }`
(same lastSeen, same online), and every other id's lookup is unchanged. -/
theorem setCommand_frame (id c : String) (m : Registry) (e : ESP)
    (hl : lookup m id = some e) (ho : e.online = true) :
    lookup (setCommandHandler "POST" (some (id, c)) m).1 id =
      some { e with command := c } ∧
    (∀ id', id' ≠ id →
      lookup (setCommandHandler "POST" (some (id, c)) m).1 id' = lookup m id') := by
  unfold setCommandHandler
  simp [hl, ho]
  have h := lookup_updateEsp_self m id (fun a => { a with command := c }) e hl
  simp only [ho] at h
  refine ⟨h, ?_⟩
  intro id' hne
  exact lookup_updateEsp_ne m id id' _ (fun hc => hne hc.symm)

/-- Witness for C9 at a two-device registry. -/
theorem setCommand_frame_witness :
    lookup (setCommandHandler "POST" (some ("a", "pulse"))
        [("a", ⟨"a", "", 0, true⟩), ("b", ⟨"b", "force", 3, false⟩)]).1 "a" =
      some ⟨"a", "pulse", 0, true⟩ :=
  (setCommand_frame "a" "pulse"
    [("a", ⟨"a", "", 0, true⟩), ("b", ⟨"b", "force", 3, false⟩)]
    ⟨"a", "", 0, true⟩ (by decide) (by decide)).1

/-- C10: every failing request (any status other than 200) leaves the
registry unchanged, for the register, poll and set-command handlers. -/
theorem failure_preserves_registry :
    (∀ (me : String) (b : Option String) (now : Int) (m : Registry),
      (registerHandler me b now m).2 ≠ 200 → (registerHandler me b now m).1 = m) ∧
    (∀ (me q : String) (now : Int) (m : Registry),
      (commandHandler me q now m).2.1 ≠ 200 → (commandHandler me q now m).1 = m) ∧
    (∀ (me : String) (b : Option (String × String)) (m : Registry),
      (setCommandHandler me b m).2.1 ≠ 200 → (setCommandHandler me b m).1 = m) := by
  refine ⟨?_, ?_, ?_⟩
  · intro me b now m hst
    unfold registerHandler at hst ⊢
    by_cases hme : me ≠ "POST"
    · simp [hme]
    · cases b with
      | none => simp [hme]
      | some id =>
          by_cases hid : id = ""
          · simp [hme, hid]
          · cases hl : lookup m id <;> simp [hme, hid, hl] at hst
  · intro me q now m hst
    unfold commandHandler at hst ⊢
    by_cases hq : q = ""
    · simp [hq]
    · cases hl : lookup m q <;> simp [hq, hl] at hst ⊢
  · intro me b m hst
    unfold setCommandHandler at hst ⊢
    by_cases hme : me ≠ "POST"
    · simp [hme]
    · cases b with
      | none => simp [hme]
      | some p =>
          cases hl : lookup m p.1 with
          | none => simp [hme, hl]
          | some e =>
              by_cases ho : e.online
              · simp [hme, hl, ho] at hst
              · simp [hme, hl, ho]

/-- Witness for C10: a GET to /register (405) leaves the registry unchanged. -/
theorem failure_preserves_registry_witness :
    (registerHandler "GET" none 0 []).1 = [] :=
  failure_preserves_registry.1 "GET" none 0 [] (by decide)

/-- C1: for a registered, online device id (registered ids are non-empty),
SetCommand(id, X) then SetCommand(id, Y) both succeed, the next poll returns Y
(the later write overwrote the earlier one), and a second immediate poll
returns "" (none): each stored command is delivered at most once. -/
theorem set_set_poll_poll (m m1 m2 m3 m4 : Registry) (id X Y : String)
    (n1 n2 : Int) (e : ESP) (o1 o2 p1 p2 : Nat × Option String)
    (hid : id ≠ "") (hl : lookup m id = some e) (ho : e.online = true)
    (h1 : setCommandHandler "POST" (some (id, X)) m = (m1, o1))
    (h2 : setCommandHandler "POST" (some (id, Y)) m1 = (m2, o2))
    (h3 : commandHandler "GET" id n1 m2 = (m3, p1))
    (h4 : commandHandler "GET" id n2 m3 = (m4, p2)) :
    o1.1 = 200 ∧ o2.1 = 200 ∧ p1 = (200, some Y) ∧ p2 = (200, some "") := by
  have e1 : setCommandHandler "POST" (some (id, X)) m =
      (updateEsp m id (fun a => { a with command := X }), 200, some X) := by
    unfold setCommandHandler
    simp [hl, ho]
  rw [e1] at h1
  have hm1 : updateEsp m id (fun a => { a with command := X }) = m1 :=
    congrArg Prod.fst h1
  have ho1 : o1.1 = 200 := (congrArg (fun q => q.2.1) h1).symm
  have l1 : lookup m1 id = some { e with command := X } := by
    rw [← hm1]
    exact lookup_updateEsp_self m id _ e hl
  have e2 : setCommandHandler "POST" (some (id, Y)) m1 =
      (updateEsp m1 id (fun a => { a with command := Y }), 200, some Y) := by
    unfold setCommandHandler
    simp [l1, ho]
  rw [e2] at h2
  have hm2 : updateEsp m1 id (fun a => { a with command := Y }) = m2 :=
    congrArg Prod.fst h2
  have ho2 : o2.1 = 200 := (congrArg (fun q => q.2.1) h2).symm
  have l2 : lookup m2 id = some { e with command := Y } := by
    rw [← hm2]
    exact lookup_updateEsp_self m1 id _ ({ e with command := X }) l1
  have e3 : commandHandler "GET" id n1 m2 =
      (updateEsp m2 id (fun a => { a with lastSeen := n1, online := true, command := "" }),
       200, some Y) := by
    unfold commandHandler
    simp [hid, l2]
  rw [e3] at h3
  have hm3 : updateEsp m2 id
      (fun a => { a with lastSeen := n1, online := true, command := "" }) = m3 :=
    congrArg Prod.fst h3
  have hp1 : p1 = (200, some Y) := (congrArg Prod.snd h3).symm
  have l3 : lookup m3 id =
      some { e with lastSeen := n1, online := true, command := "" } := by
    rw [← hm3]
    exact lookup_updateEsp_self m2 id _ ({ e with command := Y }) l2
  have e4 : commandHandler "GET" id n2 m3 =
      (updateEsp m3 id (fun a => { a with lastSeen := n2, online := true, command := "" }),
       200, some "") := by
    unfold commandHandler
    simp [hid, l3]
  rw [e4] at h4
  have hp2 : p2 = (200, some "") := (congrArg Prod.snd h4).symm
  exact ⟨ho1, ho2, hp1, hp2⟩

/-- Witness for C1: device "a" online, X = "pulse", Y = "force"; the first
poll returns "force", the second returns "". -/
theorem set_set_poll_poll_witness :
    (commandHandler "GET" "a" 5 [("a", ⟨"a", "force", 0, true⟩)]).2 =
      (200, some "force") ∧
    (commandHandler "GET" "a" 6 [("a", ⟨"a", "", 5, true⟩)]).2 =
      (200, some "") :=
  (set_set_poll_poll [("a", ⟨"a", "", 0, true⟩)]
      [("a", ⟨"a", "pulse", 0, true⟩)] [("a", ⟨"a", "force", 0, true⟩)]
      [("a", ⟨"a", "", 5, true⟩)] [("a", ⟨"a", "", 6, true⟩)]
      "a" "pulse" "force" 5 6 ⟨"a", "", 0, true⟩
      (200, some "pulse") (200, some "force")
      (commandHandler "GET" "a" 5 [("a", ⟨"a", "force", 0, true⟩)]).2
      (commandHandler "GET" "a" 6 [("a", ⟨"a", "", 5, true⟩)]).2
      (by decide) (by decide) (by decide)
      (by decide) (by decide) (by decide) (by decide)).2.2

/-- C4 counterexample: device "a" registered at time 0 (so online = true);
with timeout 30, at call time 100 the elapsed time 100 - 0 exceeds the
threshold, yet SetCommand succeeds with 200 instead of failing Unavailable:
the handler consults only the stored online flag, never the clock. -/
theorem setCommand_ignores_elapsed :
    (registerHandler "POST" (some "a") 0 []).1 = [("a", ⟨"a", "", 0, true⟩)] ∧
    ¬ ((100 : Int) - (0 : Int) < (30 : Int)) ∧
    (setCommandHandler "POST" (some ("a", "pulse"))
        [("a", ⟨"a", "", 0, true⟩)]).2.1 = 200 := by
  refine ⟨rfl, by decide, rfl⟩

/-- C4 amended: SetCommand fails with Unavailable for a stale device only
once a Monitor pass has recomputed its flag: if the pass at time `now` with
threshold `timeout` sees `¬ (now - lastSeen < timeout)`, the subsequent
SetCommand returns 503 and leaves the registry unchanged. -/
theorem setCommand_unavailable_after_monitor (m : Registry) (id c : String)
    (now timeout : Int) (e : ESP) (hl : lookup m id = some e)
    (hel : ¬ (now - e.lastSeen < timeout)) :
    setCommandHandler "POST" (some (id, c)) (monitorPass now timeout m) =
      (monitorPass now timeout m, 503, none) := by
  have h := lookup_monitorPass now timeout m id
  rw [hl] at h
  simp only [Option.map_some'] at h
  unfold setCommandHandler
  simp [h, hel]

/-- Witness for C4 amended: after a monitor pass at time 100 with timeout 30
over a device last seen at 0, SetCommand fails with 503. -/
theorem setCommand_unavailable_after_monitor_witness :
    setCommandHandler "POST" (some ("a", "pulse"))
        (monitorPass 100 30 [("a", ⟨"a", "", 0, true⟩)]) =
      (monitorPass 100 30 [("a", ⟨"a", "", 0, true⟩)], 503, none) :=
  setCommand_unavailable_after_monitor [("a", ⟨"a", "", 0, true⟩)] "a" "pulse"
    100 30 ⟨"a", "", 0, true⟩ (by decide) (by decide)

/-- C5 counterexample: "bedroom" is already registered with pending command
"pulse"; Register (which leaves the pending command untouched) followed by
PollAndClear returns "pulse", not none (""). -/
theorem register_then_poll_pending_survives :
    (commandHandler "GET" "bedroom" 6
        (registerHandler "POST" (some "bedroom") 5
          [("bedroom", ⟨"bedroom", "pulse", 0, true⟩)]).1).2.2 = some "pulse" ∧
    (some "pulse" : Option String) ≠ some "" := by
  refine ⟨rfl, by decide⟩

/-- C5 amended: Register followed immediately by PollAndClear yields
command = none ("") provided the id was absent from the registry or had no
pending command; a pre-existing pending command survives registration. -/
theorem register_then_poll_none (m : Registry) (id : String) (n1 n2 : Int)
    (hid : id ≠ "")
    (h : lookup m id = none ∨ ∃ e, lookup m id = some e ∧ e.command = "") :
    (commandHandler "GET" id n2 (registerHandler "POST" (some id) n1 m).1).2.2 =
      some "" := by
  rcases h with hl | ⟨e, hl, hc⟩
  · have hr : (registerHandler "POST" (some id) n1 m).1 =
        (id, ⟨id, "", n1, true⟩) :: m := by
      unfold registerHandler
      simp [hid, hl]
    rw [hr]
    unfold commandHandler
    simp [hid, lookup]
  · have hr : (registerHandler "POST" (some id) n1 m).1 =
        updateEsp m id (fun a => { a with lastSeen := n1, online := true }) := by
      unfold registerHandler
      simp [hid, hl]
    have l1 : lookup (registerHandler "POST" (some id) n1 m).1 id =
        some { e with lastSeen := n1, online := true } := by
      rw [hr]
      exact lookup_updateEsp_self m id _ e hl
    unfold commandHandler
    simp [hid, l1, hc]

/-- Witness for C5 amended: fresh registration of "a" then poll yields "". -/
theorem register_then_poll_none_witness :
    (commandHandler "GET" "a" 1 (registerHandler "POST" (some "a") 0 []).1).2.2 =
      some "" :=
  register_then_poll_none [] "a" 0 1 (by decide) (Or.inl rfl)

theorem register_online_mono (me : String) (b : Option String) (now : Int)
    (m : Registry) (id : String) (e e' : ESP)
    (h : lookup m id = some e)
    (h' : lookup (registerHandler me b now m).1 id = some e')
    (ho : e.online = true) : e'.online = true := by
  unfold registerHandler at h'
  by_cases hme : me ≠ "POST"
  · simp [hme, h] at h'
    rw [← h']
    exact ho
  · simp only [hme, if_false] at h'
    cases b with
    | none =>
        simp [h] at h'
        rw [← h']
        exact ho
    | some bid =>
        by_cases hbid : bid = ""
        · simp [hbid, h] at h'
          rw [← h']
          exact ho
        · simp only [hbid, if_neg, if_false] at h'
          cases hlb : lookup m bid with
          | none =>
              rw [hlb] at h'
              by_cases heq : bid = id
              · subst heq
                rw [hlb] at h
                exact absurd h (by simp)
              · simp [lookup, heq, h] at h'
                rw [← h']
                exact ho
          | some a =>
              rw [hlb] at h'
              simp only at h'
              by_cases heq : bid = id
              · subst heq
                rw [lookup_updateEsp_self m bid _ a hlb] at h'
                have : e' = { a with lastSeen := now, online := true } := by
                  injection h'.symm
                rw [this]
              · rw [lookup_updateEsp_ne m bid id _ heq, h] at h'
                have : e' = e := by injection h'.symm
                rw [this]
                exact ho

theorem poll_online_mono (me q : String) (now : Int)
    (m : Registry) (id : String) (e e' : ESP)
    (h : lookup m id = some e)
    (h' : lookup (commandHandler me q now m).1 id = some e')
    (ho : e.online = true) : e'.online = true := by
  unfold commandHandler at h'
  by_cases hq : q = ""
  · simp [hq, h] at h'
    rw [← h']
    exact ho
  · simp only [hq, if_neg, if_false] at h'
    cases hlb : lookup m q with
    | none =>
        rw [hlb] at h'
        simp only [h] at h'
        have : e' = e := by injection h'.symm
        rw [this]
        exact ho
    | some a =>
        rw [hlb] at h'
        simp only at h'
        by_cases heq : q = id
        · subst heq
          rw [lookup_updateEsp_self m q _ a hlb] at h'
          have : e' = { a with lastSeen := now, online := true, command := "" } := by
            injection h'.symm
          rw [this]
        · rw [lookup_updateEsp_ne m q id _ heq, h] at h'
          have : e' = e := by injection h'.symm
          rw [this]
          exact ho

theorem setCmd_online_mono (me : String) (b : Option (String × String))
    (m : Registry) (id : String) (e e' : ESP)
    (h : lookup m id = some e)
    (h' : lookup (setCommandHandler me b m).1 id = some e')
    (ho : e.online = true) : e'.online = true := by
  unfold setCommandHandler at h'
  by_cases hme : me ≠ "POST"
  · simp [hme, h] at h'
    rw [← h']
    exact ho
  · simp only [hme, if_false] at h'
    cases b with
    | none =>
        simp [h] at h'
        rw [← h']
        exact ho
    | some p =>
        simp only at h'
        cases hlb : lookup m p.1 with
        | none =>
            rw [hlb] at h'
            simp only [h] at h'
            have : e' = e := by injection h'.symm
            rw [this]
            exact ho
        | some a =>
            rw [hlb] at h'
            simp only at h'
            by_cases hon : a.online
            · simp only [hon, Bool.not_true, Bool.false_eq_true, if_false] at h'
              by_cases heq : p.1 = id
              · subst heq
                rw [lookup_updateEsp_self m p.1 _ a hlb] at h'
                have : e' = { a with command := p.2 } := by injection h'.symm
                rw [this]
                simpa using hon
              · rw [lookup_updateEsp_ne m p.1 id _ heq, h] at h'
                have : e' = e := by injection h'.symm
                rw [this]
                exact ho
            · simp only [Bool.not_eq_true] at hon
              simp only [hon, Bool.not_false, if_true] at h'
              simp only [h] at h'
              have : e' = e := by injection h'.symm
              rw [this]
              exact ho

/-- C6: a device's online flag is downgraded from true to false only by a
monitor pass: (1) no non-monitor operation ever turns a true online flag
false; (2) the monitor pass sets every device's flag to exactly
`now - lastSeen < timeout`. -/
theorem online_downgrade_only_by_monitor :
    (∀ (op : Op) (m : Registry) (id : String) (e e' : ESP),
      op.isMonitor = false →
      lookup m id = some e → lookup (applyOp op m) id = some e' →
      e.online = true → e'.online = true) ∧
    (∀ (now timeout : Int) (m : Registry) (id : String) (e : ESP),
      lookup m id = some e →
      lookup (applyOp (Op.monitor now timeout) m) id =
        some { e with online := decide (now - e.lastSeen < timeout) }) := by
  constructor
  · intro op m id e e' hmon h h' ho
    cases op with
    | register me b now => exact register_online_mono me b now m id e e' h h' ho
    | poll me q now => exact poll_online_mono me q now m id e e' h h' ho
    | setCmd me b => exact setCmd_online_mono me b m id e e' h h' ho
    | list me =>
        simp only [applyOp, listHandler, h] at h'
        have : e' = e := by injection h'.symm
        rw [this]
        exact ho
    | health me =>
        simp only [applyOp, healthHandler, h] at h'
        have : e' = e := by injection h'.symm
        rw [this]
        exact ho
    | monitor now t => simp [Op.isMonitor] at hmon
  · intro now timeout m id e hl
    have h := lookup_monitorPass now timeout m id
    rw [hl] at h
    simpa using h

/-- Witness for C6: a poll on device "a" (pending "x", online) leaves the
flag true; a monitor pass at time 100 with timeout 30 computes the flag. -/
theorem online_downgrade_only_by_monitor_witness :
    (ESP.mk "a" "" 5 true).online = true ∧
    lookup (applyOp (Op.monitor 100 30) [("a", ⟨"a", "", 0, true⟩)]) "a" =
      some ⟨"a", "", 0, decide ((100 : Int) - 0 < 30)⟩ :=
  ⟨online_downgrade_only_by_monitor.1 (Op.poll "GET" "a" 5)
      [("a", ⟨"a", "x", 0, true⟩)] "a" ⟨"a", "x", 0, true⟩ ⟨"a", "", 5, true⟩
      (by decide) (by decide) (by decide) (by decide),
   online_downgrade_only_by_monitor.2 100 30 [("a", ⟨"a", "", 0, true⟩)] "a"
      ⟨"a", "", 0, true⟩ (by decide)⟩

/-- C7 counterexample: the poll endpoint does not enforce any method
restriction: a DELETE request to /command for registered device "a" is
answered 200 (not 405) and mutates the registry (lastSeen is refreshed). -/
theorem poll_accepts_any_method :
    (commandHandler "DELETE" "a" 7 [("a", ⟨"a", "", 0, true⟩)]).2.1 = 200 ∧
    (commandHandler "DELETE" "a" 7 [("a", ⟨"a", "", 0, true⟩)]).2.1 ≠ 405 ∧
    (commandHandler "DELETE" "a" 7 [("a", ⟨"a", "", 0, true⟩)]).1 ≠
      [("a", ⟨"a", "", 0, true⟩)] := by
  refine ⟨rfl, by decide, by decide⟩

/-- C7 amended: only the register and set-command handlers enforce
POST-only, answering 405 on any other method without touching the registry;
the poll, list and health handlers ignore the request method entirely. -/
theorem method_enforcement (me : String) (h : me ≠ "POST") :
    (∀ (b : Option String) (now : Int) (m : Registry),
      registerHandler me b now m = (m, 405)) ∧
    (∀ (b : Option (String × String)) (m : Registry),
      setCommandHandler me b m = (m, 405, none)) ∧
    (∀ (q : String) (now : Int) (m : Registry),
      commandHandler me q now m = commandHandler "GET" q now m) ∧
    (∀ m : Registry, (listHandler me m).1 = m ∧ (listHandler me m).2.1 = 200) ∧
    (∀ m : Registry, (healthHandler me m).1 = m ∧ (healthHandler me m).2.1 = 200) := by
  refine ⟨?_, ?_, ?_, ?_, ?_⟩
  · intro b now m
    unfold registerHandler
    simp [h]
  · intro b m
    unfold setCommandHandler
    simp [h]
  · intro q now m
    rfl
  · intro m
    exact ⟨rfl, rfl⟩
  · intro m
    exact ⟨rfl, rfl⟩

/-- Witness for C7 amended: a GET to /register yields 405 with the registry
untouched. -/
theorem method_enforcement_witness :
    registerHandler "GET" (some "a") 0 [] = ([], 405) :=
  (method_enforcement "GET" (by decide)).1 (some "a") 0 []

end WakeOnDemand
